import Mathlib

/-!
Verification of the dubbing-pipeline core of the
`english-urdu-to-pashto-dubbing-end-to-end-app` repository.

The Python sources are shallowly embedded: pure computations become Lean
functions over `ℚ` (Python floats are idealized as exact rationals), `ℤ`
and `ℕ`; fallible functions return `Except`; the orchestrator's exception
handling becomes explicit outcome passing.  Every definition is translated
from the corresponding function in `src/`, named in its doc comment.
-/

/-- Python `round` (also used by `datetime.timedelta` when normalizing a
float `seconds` argument to microseconds): round to the nearest integer,
ties going to the even integer (banker's rounding). -/
def pyRound (q : ℚ) : ℤ :=
  let f := ⌊q⌋
  let r := q - f
  if r < 1/2 then f
  else if 1/2 < r then f + 1
  else if f % 2 = 0 then f else f + 1

/-- Python `int(...)` applied to a float, and NumPy `astype(int)`:
truncation toward zero. -/
def pyTrunc (q : ℚ) : ℤ :=
  if q < 0 then ⌈q⌉ else ⌊q⌋

/-- Zero padding of a natural number to a minimal width, as done by the
Python format specs `{...:02}` / `{...:03}` for non-negative values: the
value is never truncated, only left-padded with zeros. -/
def padZeros (w : ℕ) (n : ℕ) : String :=
  let s := toString n
  String.mk (List.replicate (w - s.length) '0') ++ s

/-! ## AudioTimeAligner: `src/ffmpeg_utils.py`

`_build_atempo_filter` (lines 49-61) decomposes a tempo factor into a
chain of per-stage `atempo` factors; we model the list of emitted factors
(the source then renders them into a comma-joined filter string).
`time_stretch_audio_to_target` (lines 64-100) decides between a
passthrough copy and applying the filter chain.
-/

/-- Strict decrease of the positive ceiling under halving; termination
measure for both factor-extraction loops of `_build_atempo_filter`. -/
theorem ceil_half_lt {q : ℚ} (hq : 2 < q) : ⌈q / 2⌉₊ < ⌈q⌉₊ := by
  have hN : 2 < ⌈q⌉₊ := Nat.lt_ceil.mpr (by exact_mod_cast hq)
  have hle : q ≤ (⌈q⌉₊ : ℚ) := Nat.le_ceil q
  have hcast : ((⌈q⌉₊ - 1 : ℕ) : ℚ) = (⌈q⌉₊ : ℚ) - 1 := by
    have h1 : 1 ≤ ⌈q⌉₊ := by omega
    push_cast [h1]
    ring
  have hstep : ⌈q / 2⌉₊ ≤ ⌈q⌉₊ - 1 := by
    rw [Nat.ceil_le, hcast]
    have h2 : (2 : ℚ) < (⌈q⌉₊ : ℚ) := by exact_mod_cast hN
    linarith
  omega

/-- First loop of `_build_atempo_filter` (ffmpeg_utils.py lines 54-56):
`while remaining > 2.0: factors.append(2.0); remaining /= 2.0`.  Returns
the appended factors together with the final value of `remaining`. -/
def halveLoop (r : ℚ) : List ℚ × ℚ :=
  if h : 2 < r then
    (2 :: (halveLoop (r / 2)).1, (halveLoop (r / 2)).2)
  else ([], r)
termination_by ⌈r⌉₊
decreasing_by exact ceil_half_lt h

/-- Second loop of `_build_atempo_filter` (ffmpeg_utils.py lines 57-59):
`while remaining < 0.5: factors.append(0.5); remaining /= 0.5`.  The
positivity guard reflects that the source only reaches this loop with a
positive `remaining` (tempo ≤ 0 already raised). -/
def doubleLoop (r : ℚ) : List ℚ × ℚ :=
  if h : 0 < r ∧ r < 1/2 then
    ((1/2 : ℚ) :: (doubleLoop (r / (1/2))).1, (doubleLoop (r / (1/2))).2)
  else ([], r)
termination_by ⌈1 / r⌉₊
decreasing_by
  have hr0 : r ≠ 0 := ne_of_gt h.1
  have h2 : (2 : ℚ) < 1 / r := by
    rw [lt_div_iff₀ h.1]
    linarith [h.2]
  have he : 1 / (r / (1/2)) = (1 / r) / 2 := by
    field_simp
  calc ⌈1 / (r / (1/2))⌉₊ = ⌈(1 / r) / 2⌉₊ := by rw [he]
  _ < ⌈1 / r⌉₊ := ceil_half_lt h2

/-- The factor chain emitted by `_build_atempo_filter`
(ffmpeg_utils.py lines 49-61): error on `tempo <= 0`, otherwise the
factors appended by the two loops followed by the final remainder. -/
def buildAtempoFactors (tempo : ℚ) : Except String (List ℚ) :=
  if tempo ≤ 0 then Except.error "tempo must be > 0"
  else
    Except.ok ((halveLoop tempo).1 ++ (doubleLoop (halveLoop tempo).2).1 ++
      [(doubleLoop (halveLoop tempo).2).2])

theorem halveLoop_spec (r : ℚ) :
    0 < r →
      (∀ f ∈ (halveLoop r).1, f = 2) ∧ 0 < (halveLoop r).2 ∧ (halveLoop r).2 ≤ 2 ∧
        (halveLoop r).1.prod * (halveLoop r).2 = r := by
  induction r using halveLoop.induct with
  | case1 r h ih =>
    intro _
    obtain ⟨ih1, ih2, ih3, ih4⟩ := ih (by linarith)
    rw [halveLoop, dif_pos h]
    refine ⟨?_, ih2, ih3, ?_⟩
    · intro f hf
      rcases List.mem_cons.mp hf with hf | hf
      · exact hf
      · exact ih1 f hf
    · simp only [List.prod_cons]
      rw [mul_assoc, ih4]
      ring
  | case2 r h =>
    intro hr
    rw [halveLoop, dif_neg h]
    exact ⟨by simp, hr, by linarith [not_lt.mp h], by simp⟩

theorem doubleLoop_spec (r : ℚ) :
    0 < r → r ≤ 2 →
      (∀ f ∈ (doubleLoop r).1, f = 1/2) ∧ 1/2 ≤ (doubleLoop r).2 ∧ (doubleLoop r).2 ≤ 2 ∧
        (doubleLoop r).1.prod * (doubleLoop r).2 = r := by
  induction r using doubleLoop.induct with
  | case1 r h ih =>
    intro _ _
    have hr2 : r / (1/2) = 2 * r := by ring
    obtain ⟨ih1, ih2, ih3, ih4⟩ := ih (by rw [hr2]; linarith [h.1]) (by rw [hr2]; linarith [h.2])
    rw [doubleLoop, dif_pos h]
    refine ⟨?_, ih2, ih3, ?_⟩
    · intro f hf
      rcases List.mem_cons.mp hf with hf | hf
      · exact hf
      · exact ih1 f hf
    · simp only [List.prod_cons]
      rw [mul_assoc, ih4]
      ring
  | case2 r h =>
    intro hr hr2
    rw [doubleLoop, dif_neg h]
    have : ¬ r < 1/2 := by
      intro hlt
      exact h ⟨hr, hlt⟩
    exact ⟨by simp, by linarith [not_lt.mp this], hr2, by simp⟩

theorem buildAtempoFactors_pos (tempo : ℚ) (h : 0 < tempo) :
    buildAtempoFactors tempo =
      Except.ok ((halveLoop tempo).1 ++ (doubleLoop (halveLoop tempo).2).1 ++
        [(doubleLoop (halveLoop tempo).2).2]) := by
  rw [buildAtempoFactors, if_neg (not_le.mpr h)]

/-- C3: for every tempo > 0 the chain builder emits factors each within
[0.5, 2.0] whose product equals the tempo exactly (hence within 1e-6),
and tempo = 3.2 yields the chain [2.0, 1.6]. -/
theorem C3_tempo_chain (tempo : ℚ) (h : 0 < tempo) :
    (∃ fs, buildAtempoFactors tempo = Except.ok fs ∧
      (∀ f ∈ fs, 1/2 ≤ f ∧ f ≤ 2) ∧
      fs.prod = tempo ∧ |fs.prod - tempo| ≤ 1/1000000) ∧
    buildAtempoFactors (16/5) = Except.ok [2, 8/5] := by
  constructor
  · obtain ⟨h1, h2, h3, h4⟩ := halveLoop_spec tempo h
    obtain ⟨d1, d2, d3, d4⟩ := doubleLoop_spec (halveLoop tempo).2 h2 h3
    refine ⟨_, buildAtempoFactors_pos tempo h, ?_, ?_, ?_⟩
    · intro f hf
      rcases List.mem_append.mp hf with hf | hf
      · rcases List.mem_append.mp hf with hf | hf
        · rw [h1 f hf]; norm_num
        · rw [d1 f hf]; norm_num
      · rw [List.mem_singleton.mp hf]
        exact ⟨d2, d3⟩
    · have hprod :
          ((halveLoop tempo).1 ++ (doubleLoop (halveLoop tempo).2).1 ++
            [(doubleLoop (halveLoop tempo).2).2]).prod =
            (halveLoop tempo).1.prod *
              ((doubleLoop (halveLoop tempo).2).1.prod * (doubleLoop (halveLoop tempo).2).2) := by
        simp [List.prod_append, mul_assoc]
      rw [hprod, d4, h4]
    · have hprod :
          ((halveLoop tempo).1 ++ (doubleLoop (halveLoop tempo).2).1 ++
            [(doubleLoop (halveLoop tempo).2).2]).prod =
            (halveLoop tempo).1.prod *
              ((doubleLoop (halveLoop tempo).2).1.prod * (doubleLoop (halveLoop tempo).2).2) := by
        simp [List.prod_append, mul_assoc]
      rw [hprod, d4, h4]
      simp
  · have e2 : halveLoop (8/5 : ℚ) = ([], 8/5) := by
      rw [halveLoop]
      norm_num
    have e1 : halveLoop (16/5 : ℚ) = ([2], 8/5) := by
      rw [halveLoop]
      norm_num [e2]
    have e3 : doubleLoop (8/5 : ℚ) = ([], 8/5) := by
      rw [doubleLoop]
      norm_num
    rw [buildAtempoFactors]
    norm_num [e1, e3]

/-- Witness for C3 at tempo = 3.2. -/
theorem C3_tempo_chain_witness :
    (0 : ℚ) < 16/5 ∧
      ((∃ fs, buildAtempoFactors (16/5) = Except.ok fs ∧
        (∀ f ∈ fs, 1/2 ≤ f ∧ f ≤ 2) ∧
        fs.prod = 16/5 ∧ |fs.prod - 16/5| ≤ 1/1000000) ∧
      buildAtempoFactors (16/5) = Except.ok [2, 8/5]) :=
  ⟨by norm_num, C3_tempo_chain (16/5) (by norm_num)⟩

/-! `time_stretch_audio_to_target` (ffmpeg_utils.py lines 64-100).  The
file I/O (probing, copying, running ffmpeg) is external; we model the
decision the function makes from the probed source duration, the target
duration and the tolerance: either a passthrough copy returning
`(src_duration, src_duration)`, or an application of the atempo chain. -/

/-- Action decided by `time_stretch_audio_to_target`: either a
passthrough copy of the input (with the returned duration pair), or a
stretch through the given atempo factor chain. -/
inductive StretchResult where
  | copied (durations : ℚ × ℚ)
  | stretched (chain : List ℚ)
deriving DecidableEq

/-- Decision core of `time_stretch_audio_to_target`
(ffmpeg_utils.py lines 64-100): copy when the target duration is
non-positive or within tolerance of the source duration, otherwise build
the atempo chain for `src_duration / target_duration_s`. -/
def time_stretch_plan (src_duration target_duration_s tolerance_s : ℚ) :
    Except String StretchResult :=
  if target_duration_s ≤ 0 then
    Except.ok (StretchResult.copied (src_duration, src_duration))
  else if |src_duration - target_duration_s| ≤ tolerance_s then
    Except.ok (StretchResult.copied (src_duration, src_duration))
  else
    match buildAtempoFactors (src_duration / target_duration_s) with
    | Except.error e => Except.error e
    | Except.ok fs => Except.ok (StretchResult.stretched fs)

/-- C9: a non-positive target duration short-circuits to a passthrough
copy returning (src, src) without raising, although the chain builder
itself rejects every non-positive tempo with an error. -/
theorem C9_nonpositive_target (src_duration target_duration_s tolerance_s : ℚ)
    (h : target_duration_s ≤ 0) :
    time_stretch_plan src_duration target_duration_s tolerance_s =
      Except.ok (StretchResult.copied (src_duration, src_duration)) ∧
    (∀ t : ℚ, t ≤ 0 → buildAtempoFactors t = Except.error "tempo must be > 0") := by
  constructor
  · rw [time_stretch_plan, if_pos h]
  · intro t ht
    rw [buildAtempoFactors, if_pos ht]

/-- Witness for C9 at a target duration of 0 (and tempo -3). -/
theorem C9_nonpositive_target_witness :
    (0 : ℚ) ≤ 0 ∧
      (time_stretch_plan 7 0 (7/20) = Except.ok (StretchResult.copied (7, 7)) ∧
        (∀ t : ℚ, t ≤ 0 → buildAtempoFactors t = Except.error "tempo must be > 0")) :=
  ⟨le_refl 0, C9_nonpositive_target 7 0 (7/20) (le_refl 0)⟩

/-! ## LipSyncGate: `src/speaker_gate.py`

`evaluate_lipsync_gate` (lines 83-112) decides from `speech_ratio`,
`face_ratio` and the collected face boxes.  The two ratios and the box
list come from the video/audio analysis (`_detect_faces`,
`_estimate_speech_ratio`), which are external I/O; the decision logic is
embedded as a pure function of those three values.  Because the gate
names end in a reserved suffix, the ratio fields are spelled
`speech_fraction` / `face_fraction` here; they embed the source fields
`speech_ratio` / `face_ratio` unchanged.
-/

/-- Insertion into an ascending-sorted list, helper for the sort that
`np.median` performs inside `_median_box`. -/
def insertSorted (x : ℚ) : List ℚ → List ℚ
  | [] => [x]
  | y :: ys => if x ≤ y then x :: y :: ys else y :: insertSorted x ys

/-- Ascending sort of a rational list, modelling the sort `np.median`
performs (the median value only depends on the sorted order, so any
correct ascending sort is faithful). -/
def sortQ : List ℚ → List ℚ
  | [] => []
  | x :: xs => insertSorted x (sortQ xs)

/-- NumPy `np.median` over one coordinate axis: middle element of the
sorted values for odd length, mean of the two middle elements for even
length. -/
def npMedian (xs : List ℚ) : ℚ :=
  let s := sortQ xs
  let n := xs.length
  if n % 2 = 1 then s.getD (n / 2) 0
  else (s.getD (n / 2 - 1) 0 + s.getD (n / 2) 0) / 2

/-- Face box as recorded by `_detect_faces`: (y1, y2, x1, x2). -/
abbrev FaceBox := ℤ × ℤ × ℤ × ℤ

/-- `_median_box` (speaker_gate.py lines 21-27): `None` for an empty box
list, otherwise the per-coordinate `np.median` of all boxes cast to int
(truncation toward zero, as `astype(int)` does). -/
def _median_box (boxes : List FaceBox) : Option FaceBox :=
  match boxes with
  | [] => none
  | _ =>
    some (pyTrunc (npMedian (boxes.map fun b => (b.1 : ℚ))),
      pyTrunc (npMedian (boxes.map fun b => (b.2.1 : ℚ))),
      pyTrunc (npMedian (boxes.map fun b => (b.2.2.1 : ℚ))),
      pyTrunc (npMedian (boxes.map fun b => (b.2.2.2 : ℚ))))

/-- Python float formatting `{v:.2f}` for a non-negative value: round
half-to-even at two decimals, then print with exactly two decimals. -/
def formatFixed2Nonneg (q : ℚ) : String :=
  let m := (pyRound (q * 100)).toNat
  toString (m / 100) ++ "." ++ padZeros 2 (m % 100)

/-- Python float formatting `{v:.2f}` including the sign. -/
def formatFixed2 (q : ℚ) : String :=
  if q < 0 then "-" ++ formatFixed2Nonneg (-q) else formatFixed2Nonneg q

/-- Refusal reason emitted at speaker_gate.py line 91. -/
def faceRefusalReason (q : ℚ) : String :=
  "Face not continuously visible enough for lip-sync safety (face_ratio=" ++
    formatFixed2 q ++ ")."

/-- Refusal reason emitted at speaker_gate.py line 100. -/
def speechRefusalReason (q : ℚ) : String :=
  "Speech activity too low (speech_ratio=" ++ formatFixed2 q ++ ")."

/-- Decision record of the gate (`LipSyncGateDecision`,
speaker_gate.py lines 12-18); `speech_fraction` / `face_fraction` embed
the source fields `speech_ratio` / `face_ratio`. -/
structure LipSyncGateDecision where
  should_lipsync : Bool
  reason : String
  speech_fraction : ℚ
  face_fraction : ℚ
  dominant_box : Option FaceBox
deriving DecidableEq

/-- Decision logic of `evaluate_lipsync_gate`
(speaker_gate.py lines 83-112), as a pure function of the measured
speech ratio, face ratio and collected face boxes. -/
def evaluate_lipsync_gate (speech_fraction face_fraction : ℚ)
    (face_boxes : List FaceBox) : LipSyncGateDecision :=
  let dom_box := _median_box face_boxes
  if face_fraction < 95/100 then
    { should_lipsync := false
      reason := faceRefusalReason face_fraction
      speech_fraction := speech_fraction
      face_fraction := face_fraction
      dominant_box := dom_box }
  else if speech_fraction < 1/10 then
    { should_lipsync := false
      reason := speechRefusalReason speech_fraction
      speech_fraction := speech_fraction
      face_fraction := face_fraction
      dominant_box := dom_box }
  else
    { should_lipsync := true
      reason := "Face and speech checks passed."
      speech_fraction := speech_fraction
      face_fraction := face_fraction
      dominant_box := dom_box }

theorem append_ne_empty_right (s t : String) (ht : t.length ≠ 0) : s ++ t ≠ "" := by
  intro h
  have hlen := congrArg String.length h
  rw [String.length_append] at hlen
  have h0 : ("" : String).length = 0 := rfl
  rw [h0] at hlen
  omega

theorem faceRefusalReason_ne_empty (q : ℚ) : faceRefusalReason q ≠ "" :=
  append_ne_empty_right _ _ (by decide)

theorem speechRefusalReason_ne_empty (q : ℚ) : speechRefusalReason q ≠ "" :=
  append_ne_empty_right _ _ (by decide)

theorem gate_face_branch (speech_fraction face_fraction : ℚ) (face_boxes : List FaceBox)
    (hf : face_fraction < 95/100) :
    evaluate_lipsync_gate speech_fraction face_fraction face_boxes =
      { should_lipsync := false
        reason := faceRefusalReason face_fraction
        speech_fraction := speech_fraction
        face_fraction := face_fraction
        dominant_box := _median_box face_boxes } := by
  simp only [evaluate_lipsync_gate]
  rw [if_pos hf]

theorem gate_speech_branch (speech_fraction face_fraction : ℚ) (face_boxes : List FaceBox)
    (hf : ¬ face_fraction < 95/100) (hs : speech_fraction < 1/10) :
    evaluate_lipsync_gate speech_fraction face_fraction face_boxes =
      { should_lipsync := false
        reason := speechRefusalReason speech_fraction
        speech_fraction := speech_fraction
        face_fraction := face_fraction
        dominant_box := _median_box face_boxes } := by
  simp only [evaluate_lipsync_gate]
  rw [if_neg hf, if_pos hs]

theorem gate_approve_branch (speech_fraction face_fraction : ℚ) (face_boxes : List FaceBox)
    (hf : ¬ face_fraction < 95/100) (hs : ¬ speech_fraction < 1/10) :
    evaluate_lipsync_gate speech_fraction face_fraction face_boxes =
      { should_lipsync := true
        reason := "Face and speech checks passed."
        speech_fraction := speech_fraction
        face_fraction := face_fraction
        dominant_box := _median_box face_boxes } := by
  simp only [evaluate_lipsync_gate]
  rw [if_neg hf, if_neg hs]

/-- C2: `should_lipsync` is true iff face_ratio ≥ 0.95 and
speech_ratio ≥ 0.10; when face_ratio < 0.95 the refusal reason is the
face-visibility message (the face check runs first); the gate always
returns a decision with a non-empty reason string. -/
theorem C2_lipsync_gate (speech_fraction face_fraction : ℚ) (face_boxes : List FaceBox) :
    ((evaluate_lipsync_gate speech_fraction face_fraction face_boxes).should_lipsync = true ↔
      95/100 ≤ face_fraction ∧ 1/10 ≤ speech_fraction) ∧
    (face_fraction < 95/100 →
      (evaluate_lipsync_gate speech_fraction face_fraction face_boxes).should_lipsync = false ∧
      (evaluate_lipsync_gate speech_fraction face_fraction face_boxes).reason =
        faceRefusalReason face_fraction) ∧
    (evaluate_lipsync_gate speech_fraction face_fraction face_boxes).reason ≠ "" := by
  by_cases hf : face_fraction < 95/100
  · rw [gate_face_branch speech_fraction face_fraction face_boxes hf]
    refine ⟨?_, fun _ => ⟨rfl, rfl⟩, faceRefusalReason_ne_empty face_fraction⟩
    constructor
    · intro hb
      simp at hb
    · rintro ⟨h1, _⟩
      exact absurd hf (not_lt.mpr h1)
  · by_cases hs : speech_fraction < 1/10
    · rw [gate_speech_branch speech_fraction face_fraction face_boxes hf hs]
      refine ⟨?_, fun hcon => absurd hcon hf, speechRefusalReason_ne_empty speech_fraction⟩
      constructor
      · intro hb
        simp at hb
      · rintro ⟨_, h2⟩
        exact absurd hs (not_lt.mpr h2)
    · rw [gate_approve_branch speech_fraction face_fraction face_boxes hf hs]
      refine ⟨?_, fun hcon => absurd hcon hf, ?_⟩
      · exact ⟨fun _ => ⟨not_lt.mp hf, not_lt.mp hs⟩, fun _ => rfl⟩
      · show "Face and speech checks passed." ≠ ""
        decide

/-- Witness for C2 at the spec's example face_ratio = 0.80,
speech_ratio = 0.50: refusal, with the reason naming the face ratio. -/
theorem C2_lipsync_gate_witness :
    ((80/100 : ℚ) < 95/100) ∧
    (evaluate_lipsync_gate (50/100) (80/100) []).should_lipsync = false ∧
    (evaluate_lipsync_gate (50/100) (80/100) []).reason =
      "Face not continuously visible enough for lip-sync safety (face_ratio=0.80)." := by
  have h := (C2_lipsync_gate (50/100) (80/100) []).2.1 (by norm_num)
  refine ⟨by norm_num, h.1, ?_⟩
  rw [h.2]
  have hfmt : formatFixed2 (80/100 : ℚ) = "0.80" := by
    have h0 : ¬ (80/100 : ℚ) < 0 := by norm_num
    have h1 : pyRound ((80/100 : ℚ) * 100) = 80 := by norm_num [pyRound]
    simp only [formatFixed2, formatFixed2Nonneg]
    rw [if_neg h0, h1]
    decide
  simp only [faceRefusalReason]
  rw [hfmt]
  decide

/-- C7: the returned decision's dominant box equals `_median_box` of the
collected boxes on every branch (so also when the gate refuses);
`_median_box` is `none` iff no box was recorded, and otherwise is the
per-coordinate median of all recorded boxes. -/
theorem C7_dominant_box (speech_fraction face_fraction : ℚ) (face_boxes : List FaceBox) :
    (evaluate_lipsync_gate speech_fraction face_fraction face_boxes).dominant_box =
      _median_box face_boxes ∧
    (_median_box face_boxes = none ↔ face_boxes = []) ∧
    (face_boxes ≠ [] →
      _median_box face_boxes =
        some (pyTrunc (npMedian (face_boxes.map fun b => (b.1 : ℚ))),
          pyTrunc (npMedian (face_boxes.map fun b => (b.2.1 : ℚ))),
          pyTrunc (npMedian (face_boxes.map fun b => (b.2.2.1 : ℚ))),
          pyTrunc (npMedian (face_boxes.map fun b => (b.2.2.2 : ℚ))))) := by
  refine ⟨?_, ?_, ?_⟩
  · rw [evaluate_lipsync_gate]
    split
    · rfl
    · split <;> rfl
  · cases face_boxes with
    | nil => simp [_median_box]
    | cons b bs => simp [_median_box]
  · intro hne
    cases face_boxes with
    | nil => exact absurd rfl hne
    | cons b bs => rfl

/-- Witness for C7 on a refusing input with three recorded boxes. -/
theorem C7_dominant_box_witness :
    ([(10, 20, 30, 40), (12, 22, 28, 38), (11, 21, 29, 39)] : List FaceBox) ≠ [] ∧
    ((evaluate_lipsync_gate 0 (1/2) [(10, 20, 30, 40), (12, 22, 28, 38), (11, 21, 29, 39)]).dominant_box =
      _median_box [(10, 20, 30, 40), (12, 22, 28, 38), (11, 21, 29, 39)]) ∧
    _median_box [(10, 20, 30, 40), (12, 22, 28, 38), (11, 21, 29, 39)] =
      some (11, 21, 29, 39) ∧
    _median_box ([] : List FaceBox) = none := by
  refine ⟨by simp, (C7_dominant_box 0 (1/2) _).1, ?_, by simp [_median_box]⟩
  norm_num [_median_box, npMedian, sortQ, insertSorted, pyTrunc]

/-! ## TranslationEngine: `src/seamless_service.py`

`translate_audio` (lines 273-379) splits the 16 kHz sample buffer into
fixed-size chunks (`starts = list(range(0, len(samples), chunk_size))`,
line 304) and appends one `TextSegment` per chunk with
`start_s = start / 16000.0` and `end_s = min(start + chunk_size, len) / 16000.0`
(lines 307-312, 355-364).  The chunk loop's timing structure is embedded
here; the per-chunk text comes from the external translation models.
-/

/-- Python `range(start, stop, step)` for a positive step, the iteration
space of the chunk loop (seamless_service.py line 304). -/
def pyRange (start n c : ℕ) : List ℕ :=
  if _h : 0 < c ∧ start < n then start :: pyRange (start + c) n c
  else []
termination_by n - start
decreasing_by omega

/-- Effective chunk size in samples (seamless_service.py lines 297-298):
`chunk_size = int(cfg.chunk_seconds * 16000)` then
`chunk_size = max(chunk_size, 4 * 16000)`. -/
def effectiveChunkSize (chunk_seconds : ℕ) : ℕ :=
  max (chunk_seconds * 16000) (4 * 16000)

/-- Timing of the segment recorded for the chunk starting at sample `s`
(seamless_service.py lines 307, 311-312): `(start_s, end_s)`. -/
def segOf (n c s : ℕ) : ℚ × ℚ :=
  ((s : ℚ) / 16000, ((min (s + c) n : ℕ) : ℚ) / 16000)

/-- Segment timing sequence produced by the chunk loop for a buffer of
`n` samples and chunk size `c`. -/
def chunkBoundaries (n c : ℕ) : List (ℚ × ℚ) :=
  (pyRange 0 n c).map (segOf n c)

theorem chunk_spec (start n c : ℕ) :
    0 < c → start < n →
    (∃ rest, (pyRange start n c).map (segOf n c) = segOf n c start :: rest) ∧
    List.Chain' (fun a b => a.1 < b.1) ((pyRange start n c).map (segOf n c)) ∧
    List.Chain' (fun a b => a.2 = b.1) ((pyRange start n c).map (segOf n c)) ∧
    ((pyRange start n c).map (segOf n c)).getLast?.map Prod.snd = some ((n : ℚ) / 16000) := by
  induction start, n, c using pyRange.induct with
  | case1 start n c h ih =>
    intro _ _
    rw [pyRange, dif_pos h, List.map_cons]
    by_cases hnext : start + c < n
    · obtain ⟨⟨rest, hrest⟩, hlt, heq, hlast⟩ := ih h.1 hnext
      refine ⟨⟨_, rfl⟩, ?_, ?_, ?_⟩
      · rw [hrest, List.chain'_cons]
        refine ⟨?_, by rw [← hrest]; exact hlt⟩
        show (start : ℚ) / 16000 < ((start + c : ℕ) : ℚ) / 16000
        have hcq : (0 : ℚ) < (c : ℚ) := by exact_mod_cast h.1
        push_cast
        gcongr
        linarith
      · rw [hrest, List.chain'_cons]
        refine ⟨?_, by rw [← hrest]; exact heq⟩
        show ((min (start + c) n : ℕ) : ℚ) / 16000 = ((start + c : ℕ) : ℚ) / 16000
        rw [Nat.min_eq_left (le_of_lt hnext)]
      · rw [hrest, List.getLast?_cons_cons, ← hrest]
        exact hlast
    · have hempty : pyRange (start + c) n c = [] := by
        rw [pyRange, dif_neg]
        intro hcon
        exact hnext hcon.2
      rw [hempty]
      refine ⟨⟨[], rfl⟩, List.chain'_singleton _, List.chain'_singleton _, ?_⟩
      show some (segOf n c start).2 = some ((n : ℚ) / 16000)
      rw [segOf]
      rw [Nat.min_eq_right (le_of_not_lt hnext)]
  | case2 start n c h =>
    intro hc hs
    exact absurd ⟨hc, hs⟩ h

/-- C6: for every non-empty sample buffer and positive chunk size, the
produced segment timings start at 0, have strictly increasing starts,
are contiguous, and end at the total source duration; a 42-second
source with the configured 20-second chunk size yields exactly the
boundaries [0,20), [20,40), [40,42). -/
theorem C6_segment_invariants (n c : ℕ) (hn : 0 < n) (hc : 0 < c) :
    ((chunkBoundaries n c).head?.map Prod.fst = some 0) ∧
    List.Chain' (fun a b => a.1 < b.1) (chunkBoundaries n c) ∧
    List.Chain' (fun a b => a.2 = b.1) (chunkBoundaries n c) ∧
    ((chunkBoundaries n c).getLast?.map Prod.snd = some ((n : ℚ) / 16000)) ∧
    chunkBoundaries (42 * 16000) (effectiveChunkSize 20) =
      [(0, 20), (20, 40), (40, 42)] := by
  obtain ⟨⟨rest, hrest⟩, hlt, heq, hlast⟩ := chunk_spec 0 n c hc hn
  rw [chunkBoundaries]
  refine ⟨?_, hlt, heq, hlast, ?_⟩
  · rw [hrest]
    show some (segOf n c 0).1 = some 0
    rw [segOf]
    norm_num
  · have hcs : effectiveChunkSize 20 = 320000 := by norm_num [effectiveChunkSize]
    have h3 : pyRange 960000 672000 320000 = [] := by
      rw [pyRange]
      norm_num
    have h2 : pyRange 640000 672000 320000 = [640000] := by
      rw [pyRange]
      norm_num [h3]
    have h1 : pyRange 320000 672000 320000 = [320000, 640000] := by
      rw [pyRange]
      norm_num [h2]
    have h0 : pyRange 0 672000 320000 = [0, 320000, 640000] := by
      rw [pyRange]
      norm_num [h1]
    have hn42 : 42 * 16000 = 672000 := by norm_num
    rw [chunkBoundaries, hcs, hn42, h0]
    norm_num [segOf]

/-- Witness for C6 on the 42-second, 20-second-chunk example. -/
theorem C6_segment_invariants_witness :
    0 < 672000 ∧ 0 < effectiveChunkSize 20 ∧
    chunkBoundaries 672000 (effectiveChunkSize 20) = [(0, 20), (20, 40), (40, 42)] := by
  have h := (C6_segment_invariants 672000 (effectiveChunkSize 20) (by norm_num)
    (by norm_num [effectiveChunkSize])).2.2.2.2
  refine ⟨by norm_num, by norm_num [effectiveChunkSize], ?_⟩
  have hn42 : (42 * 16000 : ℕ) = 672000 := by norm_num
  rw [← hn42]
  exact h

/-! Per-chunk hypothesis selection of `translate_audio`
(seamless_service.py lines 319-338): the direct hypothesis is kept
unless the text-route round-trip score beats the direct round-trip score
by more than the configured margin; the recorded score and strategy tag
follow the chosen hypothesis. -/

/-- Relevant `PipelineConfig` fields with their defaults
(config.py lines 69-85). -/
structure PipelineConfig where
  chunk_seconds : ℕ := 20
  enable_translation_verification : Bool := true
  verification_margin : ℚ := 3/100
  min_roundtrip_score : ℚ := 55/100

/-- Default-constructed pipeline configuration. -/
def defaultConfig : PipelineConfig := {}

/-- Per-chunk translation choice recorded into the `TextSegment`
(seamless_service.py lines 319-321, 332-338, 355-364). -/
structure ChunkSelection where
  chosen : String
  verification_score : ℚ
  strategy : String
deriving DecidableEq

/-- Verified-chunk selection logic (seamless_service.py lines 332-338):
`if score_t2t > score_direct + margin` take the text-route hypothesis
with its score, else keep the direct hypothesis with its score. -/
def selectTranslation (direct_pashto t2t_pashto : String)
    (score_direct score_t2t margin : ℚ) : ChunkSelection :=
  if score_direct + margin < score_t2t then
    { chosen := t2t_pashto
      verification_score := score_t2t
      strategy := "s2tt+verify->t2tt" }
  else
    { chosen := direct_pashto
      verification_score := score_direct
      strategy := "s2tt+verify->s2tt" }

/-- C4: selection is deterministic: the text route wins iff its score
exceeds the direct score by more than the margin; ties and near-ties
keep the direct hypothesis; the recorded verification score is the score
of the chosen hypothesis; the default margin is 0.03. -/
theorem C4_strategy_selection (direct_pashto t2t_pashto : String)
    (score_direct score_t2t margin : ℚ) :
    ((selectTranslation direct_pashto t2t_pashto score_direct score_t2t margin).strategy =
        "s2tt+verify->t2tt" ↔ score_direct + margin < score_t2t) ∧
    (score_direct + margin < score_t2t →
      selectTranslation direct_pashto t2t_pashto score_direct score_t2t margin =
        { chosen := t2t_pashto, verification_score := score_t2t,
          strategy := "s2tt+verify->t2tt" }) ∧
    (score_t2t ≤ score_direct + margin →
      selectTranslation direct_pashto t2t_pashto score_direct score_t2t margin =
        { chosen := direct_pashto, verification_score := score_direct,
          strategy := "s2tt+verify->s2tt" }) ∧
    defaultConfig.verification_margin = 3/100 := by
  by_cases hlt : score_direct + margin < score_t2t
  · rw [selectTranslation, if_pos hlt]
    exact ⟨⟨fun _ => hlt, fun _ => rfl⟩, fun _ => rfl,
      fun hle => absurd hlt (not_lt.mpr hle), rfl⟩
  · rw [selectTranslation, if_neg hlt]
    refine ⟨⟨fun hs => ?_, fun hcon => absurd hcon hlt⟩, fun hcon => absurd hcon hlt,
      fun _ => rfl, rfl⟩
    have hs2 : ("s2tt+verify->s2tt" : String) = "s2tt+verify->t2tt" := hs
    exact absurd hs2 (by decide)

/-- Witness for C4: a clear text-route win and an exact tie. -/
theorem C4_strategy_selection_witness :
    ((1/2 : ℚ) + 3/100 < 6/10 ∧
      selectTranslation "a" "b" (1/2) (6/10) (3/100) =
        { chosen := "b", verification_score := 6/10, strategy := "s2tt+verify->t2tt" }) ∧
    ((53/100 : ℚ) ≤ 1/2 + 3/100 ∧
      selectTranslation "a" "b" (1/2) (53/100) (3/100) =
        { chosen := "a", verification_score := 1/2, strategy := "s2tt+verify->s2tt" }) :=
  ⟨⟨by norm_num, (C4_strategy_selection "a" "b" (1/2) (6/10) (3/100)).2.1 (by norm_num)⟩,
   ⟨by norm_num, (C4_strategy_selection "a" "b" (1/2) (53/100) (3/100)).2.2.1 (by norm_num)⟩⟩

/-! ## SpeechSynthesizer: `src/tts_service.py` -/

/-- Translated segment record (`TextSegment`,
seamless_service.py lines 19-26). -/
structure TextSegment where
  start_s : ℚ
  end_s : ℚ
  text : String
  source_text : String := ""
  verification_score : ℚ := 0
  strategy : String := "s2tt"

/-- Peak amplitude `np.max(np.abs(samples))` of a decoded clip
(tts_service.py line 39). -/
def clipPeak (samples : List ℚ) : ℚ :=
  (samples.map (fun s => |s|)).foldr max 0

/-- Mean square `np.mean(samples * samples)` of a decoded clip; the
source compares `rms = sqrt(mean)` against 0.0008
(tts_service.py line 40). -/
def clipMeanSq (samples : List ℚ) : ℚ :=
  (samples.map (fun s => s * s)).sum / samples.length

/-- `_is_near_silent` (tts_service.py lines 34-41): empty decode is
near-silent, otherwise `peak < 0.003 or rms < 0.0008`.  Since `rms` and
its floor are non-negative, `rms < 0.0008` is embedded as the exact
equivalent `mean(samples ** 2) < 0.0008 ** 2`, avoiding the inexact
square root. -/
def _is_near_silent (samples : List ℚ) : Bool :=
  match samples with
  | [] => true
  | _ :: _ =>
    decide (clipPeak samples < 3/1000) ||
      decide (clipMeanSq samples < (8/10000) * (8/10000))

theorem foldr_max_replicate_zero (n : ℕ) :
    (List.replicate n (0 : ℚ)).foldr max 0 = 0 := by
  induction n with
  | zero => rfl
  | succ k ih => simp [List.replicate_succ, ih]

theorem clipPeak_spike :
    clipPeak ((1/100 : ℚ) :: List.replicate 156 0) = 1/100 := by
  rw [clipPeak, List.map_cons, List.map_replicate, List.foldr_cons, abs_zero,
    foldr_max_replicate_zero]
  rw [abs_of_pos (by norm_num)]
  exact max_eq_left (by norm_num)

theorem clipMeanSq_spike :
    clipMeanSq ((1/100 : ℚ) :: List.replicate 156 0) = 1/1570000 := by
  rw [clipMeanSq, List.map_cons, List.map_replicate, List.sum_cons]
  simp only [mul_zero, List.sum_replicate, smul_zero, List.length_cons,
    List.length_replicate]
  norm_num

/-- Counterexample to C5 as stated: a clip whose peak (0.01) is at or
above the 0.003 floor but whose RMS is below the 0.0008 floor IS
rejected as near-silent, because `_is_near_silent` combines the two
floor checks with `or`, not `and`. -/
theorem C5_counterexample :
    _is_near_silent ((1/100 : ℚ) :: List.replicate 156 0) = true ∧
    ¬ clipPeak ((1/100 : ℚ) :: List.replicate 156 0) < 3/1000 := by
  constructor
  · rw [_is_near_silent]
    simp only [Bool.or_eq_true, decide_eq_true_eq]
    right
    rw [clipMeanSq_spike]
    norm_num
  · rw [clipPeak_spike]
    norm_num

/-- C5 amended: for every non-empty clip, the validator classifies it as
near-silent exactly when its peak amplitude is below the 0.003 floor OR
its mean square (rms squared) is below the 0.0008² floor; a clip with
both quantities at or above their floors is not rejected. -/
theorem C5_near_silent_amended (samples : List ℚ) (hne : samples ≠ []) :
    _is_near_silent samples = true ↔
      (clipPeak samples < 3/1000 ∨ clipMeanSq samples < (8/10000) * (8/10000)) := by
  cases samples with
  | nil => exact absurd rfl hne
  | cons a as =>
    rw [_is_near_silent]
    simp only [Bool.or_eq_true, decide_eq_true_eq]

/-- Witness for the amended C5 at the counterexample clip. -/
theorem C5_near_silent_amended_witness :
    ((1/100 : ℚ) :: List.replicate 156 0) ≠ [] ∧
    (_is_near_silent ((1/100 : ℚ) :: List.replicate 156 0) = true ↔
      (clipPeak ((1/100 : ℚ) :: List.replicate 156 0) < 3/1000 ∨
        clipMeanSq ((1/100 : ℚ) :: List.replicate 156 0) < (8/10000) * (8/10000))) :=
  ⟨List.cons_ne_nil _ _,
   C5_near_silent_amended ((1/100 : ℚ) :: List.replicate 156 0) (List.cons_ne_nil _ _)⟩

/-- Per-segment synthesis plan of `synthesize_segments`
(tts_service.py lines 217-225): for each segment, the text handed to the
TTS backend and the duration target handed to the time aligner,
`target_len = max(0.25, seg.end_s - seg.start_s)`. -/
def synthesize_segments_plan (segments : List TextSegment) : List (String × ℚ) :=
  segments.map fun seg => (seg.text, max (1/4) (seg.end_s - seg.start_s))

/-- C10: the duration target passed to the time aligner is
max(0.25, end_s - start_s): a segment spanning less than 0.25 s is fit
toward 0.25 s, a segment spanning at least 0.25 s toward its own span. -/
theorem C10_tts_target_length (segments : List TextSegment) (seg : TextSegment)
    (hmem : seg ∈ segments) :
    (seg.text, max (1/4) (seg.end_s - seg.start_s)) ∈ synthesize_segments_plan segments ∧
    (seg.end_s - seg.start_s < 1/4 → max (1/4 : ℚ) (seg.end_s - seg.start_s) = 1/4) ∧
    (1/4 ≤ seg.end_s - seg.start_s →
      max (1/4 : ℚ) (seg.end_s - seg.start_s) = seg.end_s - seg.start_s) :=
  ⟨List.mem_map_of_mem _ hmem,
   fun h => max_eq_left (le_of_lt h),
   fun h => max_eq_right h⟩

/-- Witness for C10 on a 0.1-second segment. -/
theorem C10_tts_target_length_witness :
    ({ start_s := 0, end_s := 1/10, text := "x" } : TextSegment) ∈
      [({ start_s := 0, end_s := 1/10, text := "x" } : TextSegment)] ∧
    (("x", max (1/4 : ℚ) (1/10 - 0)) ∈
      synthesize_segments_plan [{ start_s := 0, end_s := 1/10, text := "x" }] ∧
    max (1/4 : ℚ) ((1/10 : ℚ) - 0) = 1/4) := by
  have h := C10_tts_target_length [{ start_s := 0, end_s := 1/10, text := "x" }]
    { start_s := 0, end_s := 1/10, text := "x" } (List.mem_singleton.mpr rfl)
  exact ⟨List.mem_singleton.mpr rfl, h.1, h.2.1 (by norm_num)⟩

/-! ## Subtitle writer: `src/utils.py` -/

/-- `format_srt_timestamp` (utils.py lines 106-112).  Negative input is
clamped to 0.  `datetime(1,1,1) + timedelta(seconds=s)` is embedded by
its microsecond total (`timedelta` rounds a float `seconds` argument to
whole microseconds, ties to even), from which hour-of-day, minute and
second are read off.  The milliseconds field is computed separately in
the source as `int(round((seconds - int(seconds)) * 1000))`; since the
clamped value is non-negative, Python `int(seconds)` truncation is the
floor. -/
def format_srt_timestamp (seconds : ℚ) : String :=
  let s := if seconds < 0 then (0 : ℚ) else seconds
  let micros := (pyRound (s * 1000000)).toNat
  let totalSecs := micros / 1000000
  let hour := totalSecs / 3600 % 24
  let minute := totalSecs / 60 % 60
  let second := totalSecs % 60
  let millis := (pyRound ((s - (⌊s⌋ : ℚ)) * 1000)).toNat
  padZeros 2 hour ++ ":" ++ padZeros 2 minute ++ ":" ++ padZeros 2 second ++ "," ++
    padZeros 3 millis

/-- Python `str.strip()`: remove leading and trailing whitespace,
embedded structurally over the character list. -/
def pyStrip (s : String) : String :=
  String.mk (((s.data.dropWhile Char.isWhitespace).reverse.dropWhile
    Char.isWhitespace).reverse)

/-- Lines emitted for one subtitle entry (utils.py lines 117-121):
1-based index, timestamp line, text line (stripped, `[No text]` when
empty after stripping), and a blank separator line. -/
def srtEntryLines (idx : ℕ) (start_s end_s : ℚ) (text : String) : List String :=
  [toString idx,
   format_srt_timestamp start_s ++ " --> " ++ format_srt_timestamp end_s,
   if pyStrip text = "" then "[No text]" else pyStrip text,
   ""]

/-- Line accumulation of `write_srt` starting from a given index
(utils.py lines 115-121, `enumerate(segments, start=1)`). -/
def writeSrtLinesFrom (idx : ℕ) : List (ℚ × ℚ × String) → List String
  | [] => []
  | (s, e, t) :: rest => srtEntryLines idx s e t ++ writeSrtLinesFrom (idx + 1) rest

/-- `write_srt` (utils.py lines 115-122): the file content is the
newline-join of all entry lines. -/
def write_srt (segments : List (ℚ × ℚ × String)) : String :=
  String.intercalate "\n" (writeSrtLinesFrom 1 segments)

/-- C8: evaluation of the writer at 0.9999 seconds.  The claim's
"milliseconds zero-padded to exactly 3 digits" fails: the separately
rounded fractional part reaches 1000, so the writer emits the four-digit
milliseconds field "1000" and the invalid timestamp "00:00:00,1000"
(inconsistent with the truncated seconds field). -/
theorem C8_millis_four_digits :
    format_srt_timestamp (9999/10000) = "00:00:00,1000" ∧
    write_srt [(0, 9999/10000, "wror")] =
      "1\n00:00:00,000 --> 00:00:00,1000\nwror\n" := by
  have h0 : ¬ (9999/10000 : ℚ) < 0 := by norm_num
  have hmic : pyRound ((9999/10000 : ℚ) * 1000000) = 999900 := by
    norm_num [pyRound]
  have hmil : pyRound (((9999/10000 : ℚ) - (⌊(9999/10000 : ℚ)⌋ : ℚ)) * 1000) = 1000 := by
    norm_num [pyRound]
  have hts : format_srt_timestamp (9999/10000) = "00:00:00,1000" := by
    simp only [format_srt_timestamp]
    rw [if_neg h0, hmic, hmil]
    decide
  have h0z : ¬ (0 : ℚ) < 0 := by norm_num
  have hmicz : pyRound ((0 : ℚ) * 1000000) = 0 := by
    norm_num [pyRound]
  have hmilz : pyRound (((0 : ℚ) - (⌊(0 : ℚ)⌋ : ℚ)) * 1000) = 0 := by
    norm_num [pyRound]
  have htz : format_srt_timestamp 0 = "00:00:00,000" := by
    simp only [format_srt_timestamp]
    rw [if_neg h0z, hmicz, hmilz]
    decide
  refine ⟨hts, ?_⟩
  rw [write_srt, writeSrtLinesFrom, writeSrtLinesFrom, srtEntryLines, hts, htz]
  decide

/-! ## PipelineOrchestrator: `src/pipeline.py`

`VideoDubPipeline.run` wraps the staged body in a try/except
(pipeline.py lines 86-203): `PipelineCancelledError` (raised by any
cancellation checkpoint or by a cancelled external process) deletes the
whole job directory (`shutil.rmtree(job_dir)`) and re-raises the
distinct cancellation signal, which the caller surfaces as a
"cancelled" outcome (gui.py lines 535-539); every other exception is
logged with a full traceback and re-raised with the job directory left
in place, surfacing as a "failed" outcome (gui.py lines 540-541).  The
staged body is embedded as a list of stage results, each either
producing files into the job directory or raising one of the two
exception kinds; the handler folds them into an outcome and the final
file set of the job directory. -/

/-- Result of one pipeline stage: files written into the job directory,
the cancellation signal, or any other exception. -/
inductive StageResult where
  | produces (files : List String)
  | raisesCancelled
  | raisesError
deriving DecidableEq

/-- Terminal outcome surfaced per job. -/
inductive RunOutcome where
  | completed
  | cancelled
  | failed
deriving DecidableEq

/-- The try/except of `VideoDubPipeline.run` (pipeline.py lines 86-203)
over the staged body: stages run in order accumulating job-directory
files; the first cancellation signal yields the cancelled outcome with
the job directory deleted; the first other exception yields the failed
outcome with the accumulated files retained. -/
def runPipelineStages : List StageResult → List String → RunOutcome × List String
  | [], files => (RunOutcome.completed, files)
  | StageResult.produces fs :: rest, files => runPipelineStages rest (files ++ fs)
  | StageResult.raisesCancelled :: _, _ => (RunOutcome.cancelled, [])
  | StageResult.raisesError :: _, files => (RunOutcome.failed, files)

/-- The first exception signal raised by the staged body, if any. -/
def firstSignal : List StageResult → Option RunOutcome
  | [] => none
  | StageResult.produces _ :: rest => firstSignal rest
  | StageResult.raisesCancelled :: _ => some RunOutcome.cancelled
  | StageResult.raisesError :: _ => some RunOutcome.failed

/-- C1: the run's outcome is cancelled exactly when the first raised
signal is the cancellation signal; in that case zero files remain under
the job directory; when the first raised signal is any other exception
the outcome is the generic failure and the job directory (everything
accumulated so far, including pre-existing files) is retained. -/
theorem C1_cancellation_cleanup (stages : List StageResult) (files : List String) :
    ((runPipelineStages stages files).1 = RunOutcome.cancelled ↔
      firstSignal stages = some RunOutcome.cancelled) ∧
    ((runPipelineStages stages files).1 = RunOutcome.cancelled →
      (runPipelineStages stages files).2 = []) ∧
    (firstSignal stages = some RunOutcome.failed →
      (runPipelineStages stages files).1 = RunOutcome.failed ∧
      ∃ extra, (runPipelineStages stages files).2 = files ++ extra) := by
  induction stages generalizing files with
  | nil =>
    refine ⟨⟨fun h => ?_, fun h => ?_⟩, fun h => ?_, fun h => ?_⟩
    · exact absurd (show RunOutcome.completed = RunOutcome.cancelled from h) (by decide)
    · exact absurd (show (none : Option RunOutcome) = some RunOutcome.cancelled from h)
        (by decide)
    · exact absurd (show RunOutcome.completed = RunOutcome.cancelled from h) (by decide)
    · exact absurd (show (none : Option RunOutcome) = some RunOutcome.failed from h)
        (by decide)
  | cons stage rest ih =>
    cases stage with
    | produces fs =>
      obtain ⟨ih1, ih2, ih3⟩ := ih (files ++ fs)
      refine ⟨ih1, ih2, fun h => ?_⟩
      obtain ⟨hout, extra, hfiles⟩ := ih3 h
      refine ⟨hout, fs ++ extra, ?_⟩
      show (runPipelineStages rest (files ++ fs)).2 = files ++ (fs ++ extra)
      rw [hfiles, List.append_assoc]
    | raisesCancelled =>
      exact ⟨⟨fun _ => rfl, fun _ => rfl⟩, fun _ => rfl, fun h => absurd
        (show some RunOutcome.cancelled = some RunOutcome.failed from h) (by decide)⟩
    | raisesError =>
      refine ⟨⟨fun h => absurd (show RunOutcome.failed = RunOutcome.cancelled from h)
        (by decide), fun h => absurd (show some RunOutcome.failed = some RunOutcome.cancelled
          from h) (by decide)⟩,
        fun h => absurd (show RunOutcome.failed = RunOutcome.cancelled from h) (by decide),
        fun _ => ⟨rfl, [], (List.append_nil files).symm⟩⟩

/-- Witness for C1: a run that produces a partial artifact and is then
cancelled ends cancelled with zero files; the same run failing instead
retains the artifacts. -/
theorem C1_cancellation_cleanup_witness :
    (runPipelineStages [StageResult.produces ["temp/source_16k.wav"],
        StageResult.raisesCancelled] ["pipeline.log"]).1 = RunOutcome.cancelled ∧
    (runPipelineStages [StageResult.produces ["temp/source_16k.wav"],
        StageResult.raisesCancelled] ["pipeline.log"]).2 = [] ∧
    (runPipelineStages [StageResult.produces ["temp/source_16k.wav"],
        StageResult.raisesError] ["pipeline.log"]).1 = RunOutcome.failed ∧
    (runPipelineStages [StageResult.produces ["temp/source_16k.wav"],
        StageResult.raisesError] ["pipeline.log"]).2 =
      ["pipeline.log", "temp/source_16k.wav"] := by
  have h1 := (C1_cancellation_cleanup [StageResult.produces ["temp/source_16k.wav"],
    StageResult.raisesCancelled] ["pipeline.log"]).1.mpr (by decide)
  have h2 := (C1_cancellation_cleanup [StageResult.produces ["temp/source_16k.wav"],
    StageResult.raisesCancelled] ["pipeline.log"]).2.1 h1
  have h3 := (C1_cancellation_cleanup [StageResult.produces ["temp/source_16k.wav"],
    StageResult.raisesError] ["pipeline.log"]).2.2 (by decide)
  exact ⟨h1, h2, h3.1, by decide⟩
